import Mathlib

/-!
Shallow embedding of the Pincer rate-limited retrying HTTP request pipeline
(`src/pincer/core/http.py`: `HTTPClient.__init__`, `HTTPClient.__send` and
`HTTPClient.__handle_response`).

The injected transport is modelled as a *script*: the list of responses the
network returns, one per issued request, in order.  A run of the pipeline
against a script produces a terminal `SendResult` together with the trace of
its observable effects, in order: rate-gate waits (`wait_until_not_ratelimited`),
network requests, rate-limiter bucket saves (`save_response_bucket`) and
backoff sleeps.  The theorems below inspect that trace.
-/

/-- Python `a or b` where `a` is an optional integer: both `None` and `0` are
falsy.  This is `ttl = _ttl or self.max_ttl` at http.py line 153. -/
def pyOrInt : Option Int → Int → Int
  | none, d => d
  | some v, d => if v = 0 then d else v

/-- Modelled from the spec: `remove_none` lives in `pincer/utils/conversion.py`,
which is not among the excerpted source files.  Per spec §4.2 step 4 the
pipeline sends "stripped-of-absent query parameters", so `remove_none` drops
the entries whose value is absent; an absent collection passes through
(hence the `or` fallback at http.py line 182). -/
def remove_none : Option (List (String × Option String)) → Option (List (String × String))
  | none => none
  | some l => some (l.filterMap fun p => p.2.map fun v => (p.1, v))

/-- Lookup in a Python dict built by listing key/value pairs in order: a later
binding of a key overwrites an earlier one. -/
def dictGet : List (String × String) → String → Option String
  | [], _ => none
  | p :: rest, k => (dictGet rest k).orElse fun _ => if k = p.1 then some p.2 else none

/-- The headers dict actually sent by `__send` (http.py lines 180-183): the
content-type entry first, followed by the None-stripped caller headers;
on lookup a caller entry with the same key wins, Python-dict style. -/
def mergedHeaders (content_type : String)
    (headers : Option (List (String × Option String))) : List (String × String) :=
  ("Content-Type", content_type) :: (remove_none headers).getD []

/-- A request payload: either a structured dict, which `__send` serializes
with `dumps` before sending, or an already-serialized string. -/
inductive PyData where
  | pdict (entries : List (String × String))
  | pstr (s : String)
  deriving Repr, DecidableEq

/-- Model of `json.dumps` on a flat string dict; the exact output format is
irrelevant to the claims, only that dicts are serialized before sending. -/
def dumps (entries : List (String × String)) : String :=
  String.intercalate "," (entries.map fun p => p.1 ++ ":" ++ p.2)

/-- The rebinding `data = dumps(data)` performed when the payload is a dict
(http.py lines 164-165); strings and `None` pass through. -/
def serialize : Option PyData → Option String
  | none => none
  | some (PyData.pdict d) => some (dumps d)
  | some (PyData.pstr s) => some s

/-- One transport response: HTTP status, the response headers (fed to
`save_response_bucket`), the parsed JSON body (kept abstract), and the
`retry_after` field of that body when present (read on the 429 path at
http.py line 251). -/
structure Response where
  status : Nat
  headers : List (String × String)
  body : String
  retry_after : Option Nat
  deriving Repr, DecidableEq

/-- The data of one network call as issued by `__send` (http.py lines 177-185):
method, endpoint, the merged headers dict, the None-stripped query
parameters and the serialized payload. -/
structure Request where
  methodName : String
  endpoint : String
  headers : List (String × String)
  params : Option (List (String × String))
  data : Option String
  deriving Repr, DecidableEq

/-- Exception kinds of the `__http_exceptions` table (http.py lines 87-95). -/
inductive MappedExc where
  | notModifiedError
  | badRequestError
  | unauthorizedError
  | forbiddenError
  | notFoundError
  | methodNotAllowedError
  | rateLimitError
  deriving Repr, DecidableEq

/-- The `__http_exceptions` status table (http.py lines 87-95), consulted via
`.get` at line 247.  Note that it contains an entry for 304 even though the
`res.ok` branch already covers every status below 400. -/
def http_exceptions (status : Nat) : Option MappedExc :=
  if status = 304 then some MappedExc.notModifiedError
  else if status = 400 then some MappedExc.badRequestError
  else if status = 401 then some MappedExc.unauthorizedError
  else if status = 403 then some MappedExc.forbiddenError
  else if status = 404 then some MappedExc.notFoundError
  else if status = 405 then some MappedExc.methodNotAllowedError
  else if status = 429 then some MappedExc.rateLimitError
  else none

/-- Terminal result of running `__send` against a finite transport script.
`retriesExhausted` is the `ServerError("Maximum amount of retries for ...")`
raise at http.py line 162; `httpError` is the raise of a mapped exception at
line 272; `outOfScript` means the finite script was exhausted before the run
reached any terminal outcome. -/
inductive SendResult where
  | ok (body : Option String)
  | httpError (exc : MappedExc)
  | retriesExhausted (endpoint : String)
  | outOfScript
  deriving Repr, DecidableEq

/-- Observable effects of a run, in order. -/
inductive Event where
  | rateWait (endpoint methodName : String)
  | request (req : Request)
  | saveBucket (endpoint methodName : String) (headers : List (String × String))
  | sleep (seconds : Int)
  deriving Repr, DecidableEq

/-- The client configuration relevant to the pipeline: `self.max_ttl`
(http.py line 78, constructor keyword `ttl`, default 5). -/
structure HTTPClient where
  max_ttl : Int
  deriving Repr, DecidableEq

/-- One logical `__send` call (http.py lines 111-188) fused with
`__handle_response` (lines 190-291), evaluated against a transport script.
Each network attempt consumes the next scripted response; an empty script
ends the run with `outOfScript`.  Mirrored control flow, in order:
the `_ttl or max_ttl` defaulting, the `ttl == 0` raise, payload
serialization, the rate-gate wait, the network call, the unconditional
`save_response_bucket`, the `res.ok` test (aiohttp: true iff status < 400)
with its 204 special case, the `__http_exceptions` lookup with the
`RateLimitError` recursion (no `_ttl` argument) or raise, and the 5xx
backoff recursion with `_ttl - 1`. -/
def sendLoop (cli : HTTPClient) (methodName endpoint content_type : String) :
    List Response → Option PyData → Option (List (String × Option String)) →
    Option Int → Option (List (String × Option String)) → SendResult × List Event
  | script, dataArg, headers, ttlArg, params =>
    let ttl := pyOrInt ttlArg cli.max_ttl
    if ttl = 0 then
      (SendResult.retriesExhausted endpoint, [])
    else
      let data := serialize dataArg
      let req : Request :=
        ⟨methodName, endpoint, mergedHeaders content_type headers, remove_none params, data⟩
      match script with
      | [] =>
        (SendResult.outOfScript,
          [Event.rateWait endpoint methodName, Event.request req])
      | r :: rest =>
        if r.status < 400 then
          if r.status = 204 then
            (SendResult.ok none,
              [Event.rateWait endpoint methodName, Event.request req,
                Event.saveBucket endpoint methodName r.headers])
          else
            (SendResult.ok (some r.body),
              [Event.rateWait endpoint methodName, Event.request req,
                Event.saveBucket endpoint methodName r.headers])
        else
          match http_exceptions r.status with
          | some exc =>
            if exc = MappedExc.rateLimitError then
              let timeout : Int := (r.retry_after.map Int.ofNat).getD 40
              let out := sendLoop cli methodName endpoint content_type rest
                (data.map PyData.pstr) none none none
              (out.1,
                Event.rateWait endpoint methodName :: Event.request req ::
                  Event.saveBucket endpoint methodName r.headers ::
                  Event.sleep timeout :: out.2)
            else
              (SendResult.httpError exc,
                [Event.rateWait endpoint methodName, Event.request req,
                  Event.saveBucket endpoint methodName r.headers])
          | none =>
            let retry_in : Int := 1 + (cli.max_ttl - ttl) * 2
            let out := sendLoop cli methodName endpoint content_type rest
              (data.map PyData.pstr) none (some (ttl - 1)) none
            (out.1,
              Event.rateWait endpoint methodName :: Event.request req ::
                Event.saveBucket endpoint methodName r.headers ::
                Event.sleep retry_in :: out.2)

/-- A public call: every HTTP verb (http.py lines 293-487) invokes `__send`
without `_ttl`, so the run starts with `ttlArg = none`. -/
def send (cli : HTTPClient) (script : List Response)
    (methodName endpoint content_type : String)
    (dataArg : Option PyData)
    (headers : Option (List (String × Option String)))
    (params : Option (List (String × Option String))) : SendResult × List Event :=
  sendLoop cli methodName endpoint content_type script dataArg headers none params

/-- The network requests of a trace, in order. -/
def traceRequests : List Event → List Request
  | [] => []
  | Event.request r :: rest => r :: traceRequests rest
  | _ :: rest => traceRequests rest

/-- The sleep durations of a trace, in order. -/
def traceSleeps : List Event → List Int
  | [] => []
  | Event.sleep s :: rest => s :: traceSleeps rest
  | _ :: rest => traceSleeps rest

/-- The headers handed to `save_response_bucket`, in order. -/
def traceSaves : List Event → List (List (String × String))
  | [] => []
  | Event.saveBucket _ _ h :: rest => h :: traceSaves rest
  | _ :: rest => traceSaves rest

/-- Number of network requests issued during a run. -/
def requestCount (t : List Event) : Nat :=
  (traceRequests t).length

/-- Every request event that received a response is immediately followed by
its `save_response_bucket` event — before any sleep, retry or terminal
decision; a final request may be unanswered (script exhausted). -/
def savedBeforeDecision : List Event → Bool
  | [] => true
  | Event.request _ :: Event.saveBucket _ _ _ :: rest => savedBeforeDecision rest
  | Event.request _ :: [] => true
  | Event.request _ :: _ :: _ => false
  | _ :: rest => savedBeforeDecision rest

/-- A generic 5xx response. -/
def srvResp : Response :=
  ⟨500, [("X-RateLimit-Remaining", "2")], "internal error", none⟩

/-- A generic success response carrying a body. -/
def okResp (body : String) : Response :=
  ⟨200, [("X-RateLimit-Remaining", "3")], body, none⟩

/-- A 429 response whose body carries the given `retry_after` value. -/
def rlResp (ra : Option Nat) : Response :=
  ⟨429, [("X-RateLimit-Scope", "user")], "rate limited", ra⟩

/-- Unfolding equation of `sendLoop` for an exhausted script. -/
theorem sendLoop_nil (cli : HTTPClient) (mn ep ct : String) (d : Option PyData)
    (h : Option (List (String × Option String))) (t : Option Int)
    (p : Option (List (String × Option String))) :
    sendLoop cli mn ep ct [] d h t p =
      if pyOrInt t cli.max_ttl = 0 then (SendResult.retriesExhausted ep, [])
      else
        (SendResult.outOfScript,
          [Event.rateWait ep mn,
            Event.request ⟨mn, ep, mergedHeaders ct h, remove_none p, serialize d⟩]) := rfl

/-- Unfolding equation of `sendLoop` for a script that still holds a response. -/
theorem sendLoop_cons (cli : HTTPClient) (mn ep ct : String) (r : Response)
    (rest : List Response) (d : Option PyData)
    (h : Option (List (String × Option String))) (t : Option Int)
    (p : Option (List (String × Option String))) :
    sendLoop cli mn ep ct (r :: rest) d h t p =
      if pyOrInt t cli.max_ttl = 0 then (SendResult.retriesExhausted ep, [])
      else
        let req : Request := ⟨mn, ep, mergedHeaders ct h, remove_none p, serialize d⟩
        if r.status < 400 then
          if r.status = 204 then
            (SendResult.ok none,
              [Event.rateWait ep mn, Event.request req, Event.saveBucket ep mn r.headers])
          else
            (SendResult.ok (some r.body),
              [Event.rateWait ep mn, Event.request req, Event.saveBucket ep mn r.headers])
        else
          match http_exceptions r.status with
          | some exc =>
            if exc = MappedExc.rateLimitError then
              let out := sendLoop cli mn ep ct rest ((serialize d).map PyData.pstr) none none none
              (out.1,
                Event.rateWait ep mn :: Event.request req ::
                  Event.saveBucket ep mn r.headers ::
                  Event.sleep ((r.retry_after.map Int.ofNat).getD 40) :: out.2)
            else
              (SendResult.httpError exc,
                [Event.rateWait ep mn, Event.request req, Event.saveBucket ep mn r.headers])
          | none =>
            let out := sendLoop cli mn ep ct rest ((serialize d).map PyData.pstr) none
              (some (pyOrInt t cli.max_ttl - 1)) none
            (out.1,
              Event.rateWait ep mn :: Event.request req ::
                Event.saveBucket ep mn r.headers ::
                Event.sleep (1 + (cli.max_ttl - pyOrInt t cli.max_ttl) * 2) :: out.2) := rfl

/-- Auxiliary: with ceiling 1, every recursive step of the retry loop runs at
effective ttl 1 again, because `pyOrInt (some 0) 1 = 1` (Python `0 or 1`), so
an all-5xx script is consumed in full and the exhaustion raise never fires. -/
theorem sendLoop_ceiling_one_all_5xx : ∀ (n : Nat) (mn ep ct : String)
    (d : Option PyData) (h p : Option (List (String × Option String))) (t : Option Int),
    pyOrInt t 1 = 1 →
    (sendLoop ⟨1⟩ mn ep ct (List.replicate n srvResp) d h t p).1 = SendResult.outOfScript ∧
    requestCount (sendLoop ⟨1⟩ mn ep ct (List.replicate n srvResp) d h t p).2 = n + 1 := by
  intro n
  induction n with
  | zero =>
    intro mn ep ct d h p t ht
    simp [sendLoop, ht, requestCount, traceRequests]
  | succ n ih =>
    intro mn ep ct d h p t ht
    have hrec := ih mn ep ct ((serialize d).map PyData.pstr) none none (some 0) rfl
    rw [List.replicate_succ, sendLoop_cons]
    simp only [requestCount, srvResp] at hrec ⊢
    norm_num [ht, srvResp, http_exceptions, traceRequests]
    exact ⟨hrec.1, by omega⟩

/-- C1: the exhaustion half of the claim fails on the code.  With ceiling 1
and a transport that answers 500 to every attempt, the claim demands a
retries-exhausted `ServerError` after exactly 1 attempt; instead
`ttl = _ttl or self.max_ttl` (http.py line 153) treats the recursively passed
`_ttl = 0` as falsy and resets the budget to the ceiling, so for every n the
pipeline issues n + 1 network requests (one per scripted 500 plus a further
attempt) and never reaches the `ttl == 0` raise. -/
theorem always_5xx_never_exhausts_budget : ∀ (n : Nat) (mn ep ct : String)
    (d : Option PyData) (h p : Option (List (String × Option String))),
    (send ⟨1⟩ (List.replicate n srvResp) mn ep ct d h p).1 = SendResult.outOfScript ∧
    requestCount (send ⟨1⟩ (List.replicate n srvResp) mn ep ct d h p).2 = n + 1 := by
  intro n mn ep ct d h p
  exact sendLoop_ceiling_one_all_5xx n mn ep ct d h p none rfl

/-- C2 (counterexample): a 402 response — a 4xx other than 429 — does not
raise a mapped error and is not terminal: it falls into the branch the code
comments as "guaranteed to be 5xx", sleeps 1 second, and a second network
request is issued, which here succeeds. -/
theorem unmapped_4xx_is_retried :
    (send ⟨5⟩ [⟨402, [], "payment required", none⟩, okResp "done"] "GET" "users/1"
        "application/json" none none none).1 = SendResult.ok (some "done") ∧
    requestCount (send ⟨5⟩ [⟨402, [], "payment required", none⟩, okResp "done"] "GET" "users/1"
        "application/json" none none none).2 = 2 ∧
    traceSleeps (send ⟨5⟩ [⟨402, [], "payment required", none⟩, okResp "done"] "GET" "users/1"
        "application/json" none none none).2 = [1] := by decide

/-- C3: the `__http_exceptions` table does map 304 to `NotModifiedError`, but
the pipeline never raises it: aiohttp's `res.ok` is true for every status
below 400, so a 304 response takes the success branch and its body is
returned; the 304 table entry is unreachable. -/
theorem status_304_returns_success_despite_mapping :
    http_exceptions 304 = some MappedExc.notModifiedError ∧
    (send ⟨5⟩ [⟨304, [], "cached entity", none⟩] "GET" "guilds/1" "application/json"
        none none none).1 = SendResult.ok (some "cached entity") ∧
    (send ⟨5⟩ [⟨304, [], "cached entity", none⟩] "GET" "guilds/1" "application/json"
        none none none).1 ≠ SendResult.httpError MappedExc.notModifiedError := by decide

/-- C4 (counterexample): the retry after a 429 does not keep the ttl
unchanged.  With ceiling 2 and script 500, 429 (retry-after 7), 500, success:
the first 500 sleeps 1 and leaves remaining budget 1; were the ttl preserved
across the 429 as claimed, the second 500 would sleep 1 + (2 - 1) * 2 = 3
and the run would sleep 1, 7, 3.  The code re-enters `__send` without `_ttl`
(http.py lines 259-264), resetting the budget to the ceiling, so the second
500 sleeps 1 + (2 - 2) * 2 = 1 and the observed sleeps are 1, 7, 1. -/
theorem ttl_not_preserved_across_429 :
    traceSleeps (send ⟨2⟩ [srvResp, rlResp (some 7), srvResp, okResp "done"] "GET" "guilds/1"
        "application/json" none none none).2 = [1, 7, 1] ∧
    traceSleeps (send ⟨2⟩ [srvResp, rlResp (some 7), srvResp, okResp "done"] "GET" "guilds/1"
        "application/json" none none none).2 ≠ [1, 7, 3] := by decide

/-- C6 (counterexample): the caller-supplied headers are merged after the
content-type entry, Python-dict style, so a caller-supplied "Content-Type"
value does override the pipeline's: the single request sent here carries
"text/plain", not the pipeline's "application/json". -/
theorem caller_content_type_overrides :
    (traceRequests (send ⟨5⟩ [okResp "done"] "POST" "channels/1/messages" "application/json"
        none (some [("Content-Type", some "text/plain")]) none).2).map
      (fun r => dictGet r.headers "Content-Type") = [some "text/plain"] ∧
    some "text/plain" ≠ some "application/json" := by decide

/-- Serializing a payload that is already a serialized string is the
identity: retries never re-serialize. -/
theorem serialize_map_pstr (d : Option String) : serialize (d.map PyData.pstr) = d := by
  cases d <;> rfl

/-- The first network request of any run that passes the ttl check carries
the merged headers, the stripped query parameters and the serialized
payload of the call. -/
theorem send_first_request (cli : HTTPClient) (script : List Response) (mn ep ct : String)
    (d : Option PyData) (h : Option (List (String × Option String))) (t : Option Int)
    (p : Option (List (String × Option String)))
    (ht : pyOrInt t cli.max_ttl ≠ 0) :
    (traceRequests (sendLoop cli mn ep ct script d h t p).2).head? =
      some ⟨mn, ep, mergedHeaders ct h, remove_none p, serialize d⟩ := by
  cases script with
  | nil => rw [sendLoop_nil, if_neg ht]; simp [traceRequests]
  | cons r rest =>
    rw [sendLoop_cons, if_neg ht]
    by_cases h4 : r.status < 400
    · by_cases h204 : r.status = 204 <;> simp [h4, h204, traceRequests]
    · rcases hx : http_exceptions r.status with _ | exc
      · simp [h4, hx, traceRequests]
      · by_cases hrl : exc = MappedExc.rateLimitError <;> simp [h4, hx, hrl, traceRequests]

/-- C2 (amended): a 4xx whose status is one of 400, 401, 403, 404 or 405 is
terminal: the mapped exception of the `__http_exceptions` table is raised
after a single network request, with no sleep and no further attempt; a 4xx
outside this table (other than 429) instead falls into the 5xx retry branch,
as the counterexample shows. -/
theorem mapped_client_errors_terminal :
    ∀ (s : Nat), s ∈ [400, 401, 403, 404, 405] →
    ∀ (C : Int) (r : Response) (rest : List Response) (mn ep ct : String)
      (d : Option PyData) (h p : Option (List (String × Option String))) (t : Option Int),
      pyOrInt t C ≠ 0 → r.status = s →
      ∃ exc, http_exceptions s = some exc ∧
        (sendLoop ⟨C⟩ mn ep ct (r :: rest) d h t p).1 = SendResult.httpError exc ∧
        requestCount (sendLoop ⟨C⟩ mn ep ct (r :: rest) d h t p).2 = 1 ∧
        traceSleeps (sendLoop ⟨C⟩ mn ep ct (r :: rest) d h t p).2 = [] := by
  intro s hs C r rest mn ep ct d h p t ht hr
  rw [sendLoop_cons, if_neg ht]
  fin_cases hs <;>
    simp [hr, http_exceptions, requestCount, traceRequests, traceSleeps]

/-- C2 witness: a 404 response is terminal after one request and raises
`NotFoundError`. -/
theorem mapped_client_errors_terminal_witness :
    (sendLoop ⟨5⟩ "GET" "users/404" "application/json"
        [⟨404, [], "not found", none⟩] none none none none).1 =
      SendResult.httpError MappedExc.notFoundError := by
  obtain ⟨exc, hexc, h1, h2, h3⟩ :=
    mapped_client_errors_terminal 404 (by decide) 5 ⟨404, [], "not found", none⟩ [] "GET"
      "users/404" "application/json" none none none none (by decide) rfl
  have hx : http_exceptions 404 = some MappedExc.notFoundError := rfl
  rw [hx] at hexc
  injection hexc with hexc
  rw [h1, ← hexc]

/-- C4 (amended): a 429 never consumes retry budget — in fact the retry
re-enters `__send` without `_ttl` (http.py lines 259-264), resetting the
budget to the full ceiling rather than leaving it unchanged — so for every
N, a run of N rate-limited responses followed by one success returns the
successful body after exactly N + 1 requests, each 429 sleeping its
server-provided retry-after (default 40). -/
theorem rate_limited_never_consumes_budget :
    ∀ (N : Nat) (C : Int), C ≠ 0 →
    ∀ (mn ep ct : String) (d : Option PyData)
      (h p : Option (List (String × Option String))) (ra : Option Nat) (body : String),
      (send ⟨C⟩ (List.replicate N (rlResp ra) ++ [okResp body]) mn ep ct d h p).1 =
        SendResult.ok (some body) ∧
      traceSleeps
          (send ⟨C⟩ (List.replicate N (rlResp ra) ++ [okResp body]) mn ep ct d h p).2 =
        List.replicate N ((ra.map Int.ofNat).getD 40) ∧
      requestCount
          (send ⟨C⟩ (List.replicate N (rlResp ra) ++ [okResp body]) mn ep ct d h p).2 =
        N + 1 := by
  intro N
  induction N with
  | zero =>
    intro C hC mn ep ct d h p ra body
    simp only [List.replicate_zero, List.nil_append, send]
    rw [sendLoop_cons]
    simp [pyOrInt, hC, okResp, requestCount, traceRequests, traceSleeps]
  | succ n ih =>
    intro C hC mn ep ct d h p ra body
    have hrec := ih C hC mn ep ct ((serialize d).map PyData.pstr) none none ra body
    simp only [send, requestCount, rlResp, okResp] at hrec ⊢
    rw [List.replicate_succ, List.cons_append, sendLoop_cons]
    simp only [pyOrInt] at *
    rw [if_neg hC]
    simp [http_exceptions, traceSleeps, traceRequests, rlResp, List.replicate_succ,
      hrec.1, hrec.2.1, hrec.2.2]

/-- C4 witness: three 429s (retry-after 2) then success, with ceiling 5. -/
theorem rate_limited_never_consumes_budget_witness :
    (send ⟨5⟩ (List.replicate 3 (rlResp (some 2)) ++ [okResp "done"]) "GET" "guilds/1"
        "application/json" none none none).1 = SendResult.ok (some "done") := by
  exact (rate_limited_never_consumes_budget 3 5 (by decide) "GET" "guilds/1"
    "application/json" none none none (some 2) "done").1

/-- C5: the backoff slept before a 5xx retry is exactly 1 + (C - ttl) * 2
whole seconds, where C is the ceiling and ttl the remaining budget before
that attempt — a deterministic value with no jitter — and with ceiling 5
five successive server errors sleep 1, 3, 5, 7, 9 seconds. -/
theorem server_error_backoff_formula :
    (∀ (C : Int) (r : Response) (rest : List Response) (mn ep ct : String)
      (d : Option PyData) (h p : Option (List (String × Option String))) (t : Option Int),
      pyOrInt t C ≠ 0 → 500 ≤ r.status → r.status ≤ 599 →
      (traceSleeps (sendLoop ⟨C⟩ mn ep ct (r :: rest) d h t p).2).head? =
        some (1 + (C - pyOrInt t C) * 2)) ∧
    traceSleeps (send ⟨5⟩ (List.replicate 5 srvResp) "GET" "guilds/1"
      "application/json" none none none).2 = [1, 3, 5, 7, 9] := by
  constructor
  · intro C r rest mn ep ct d h p t ht h5 h6
    have hx : http_exceptions r.status = none := by
      unfold http_exceptions
      rw [if_neg (by omega), if_neg (by omega), if_neg (by omega), if_neg (by omega),
        if_neg (by omega), if_neg (by omega), if_neg (by omega)]
    have h4 : ¬ r.status < 400 := by omega
    rw [sendLoop_cons, if_neg ht]
    simp [h4, hx, traceSleeps]
  · decide

/-- C5 witness: ceiling 2, first attempt against a 500: the backoff is
1 + (2 - 2) * 2 = 1 second. -/
theorem server_error_backoff_formula_witness :
    (traceSleeps (sendLoop ⟨2⟩ "GET" "guilds/1" "application/json"
        [srvResp] none none none none).2).head? = some 1 := by
  have h := server_error_backoff_formula.1 2 srvResp [] "GET" "guilds/1"
    "application/json" none none none none (by decide) (by decide) (by decide)
  simpa [pyOrInt] using h

/-- C6 (amended): the headers put on the wire are the Python-dict merge of
the content-type entry with the None-stripped caller headers, caller entries
written last: looking up any key yields the caller's value when it supplied
that key, and falls back to the pipeline's content type exactly for the key
"Content-Type" — so a caller-supplied "Content-Type" value does override the
pipeline's. -/
theorem merged_headers_lookup :
    ∀ (C : Int) (script : List Response) (mn ep ct : String) (d : Option PyData)
      (h p : Option (List (String × Option String))) (req : Request) (k : String),
      C ≠ 0 →
      (traceRequests (send ⟨C⟩ script mn ep ct d h p).2).head? = some req →
      dictGet req.headers k =
        (dictGet ((remove_none h).getD []) k).orElse
          (fun _ => if k = "Content-Type" then some ct else none) := by
  intro C script mn ep ct d h p req k hC hreq
  rw [send] at hreq
  rw [send_first_request ⟨C⟩ script mn ep ct d h none p (by simpa [pyOrInt] using hC)]
    at hreq
  injection hreq with hreq
  rw [← hreq]
  simp [mergedHeaders, dictGet]

/-- C6 witness: a caller that supplies no Content-Type gets the pipeline's
content type on lookup. -/
theorem merged_headers_lookup_witness :
    dictGet
        (Request.headers
          ⟨"GET", "guilds/1", mergedHeaders "application/json"
            (some [("Authorization", some "tok")]), none, none⟩)
        "Content-Type" = some "application/json" := by
  have h := merged_headers_lookup 5 [okResp "x"] "GET" "guilds/1" "application/json" none
    (some [("Authorization", some "tok")]) none
    ⟨"GET", "guilds/1", mergedHeaders "application/json"
      (some [("Authorization", some "tok")]), none, none⟩
    "Content-Type" (by decide) rfl
  rw [h]
  simp [remove_none, dictGet]

/-- C7: on every response — success, 4xx, 429 and 5xx alike — the
rate limiter's `save_response_bucket` runs immediately after the network
request, before the response is classified and before any sleep, retry or
raise; the saved header lists are exactly the headers of the responses
consumed, in order. -/
theorem bucket_saved_on_every_response :
    ∀ (script : List Response) (cli : HTTPClient) (mn ep ct : String) (d : Option PyData)
      (h p : Option (List (String × Option String))) (t : Option Int),
      savedBeforeDecision (sendLoop cli mn ep ct script d h t p).2 = true ∧
      traceSaves (sendLoop cli mn ep ct script d h t p).2 =
        (script.take (requestCount (sendLoop cli mn ep ct script d h t p).2)).map
          Response.headers := by
  intro script
  induction script with
  | nil =>
    intro cli mn ep ct d h p t
    by_cases ht : pyOrInt t cli.max_ttl = 0 <;>
      simp [sendLoop_nil, ht, savedBeforeDecision, traceSaves, requestCount, traceRequests]
  | cons r rest ih =>
    intro cli mn ep ct d h p t
    by_cases ht : pyOrInt t cli.max_ttl = 0
    · simp [sendLoop_cons, ht, savedBeforeDecision, traceSaves, requestCount, traceRequests]
    · rw [sendLoop_cons, if_neg ht]
      by_cases h4 : r.status < 400
      · by_cases h204 : r.status = 204 <;>
          simp [h4, h204, savedBeforeDecision, traceSaves, requestCount, traceRequests]
      · rcases hx : http_exceptions r.status with _ | exc
        · have hrec := ih cli mn ep ct ((serialize d).map PyData.pstr) none none
            (some (pyOrInt t cli.max_ttl - 1))
          simp only [requestCount] at hrec
          simp [h4, hx, savedBeforeDecision, traceSaves, requestCount, traceRequests,
            hrec.1, hrec.2]
        · by_cases hrl : exc = MappedExc.rateLimitError
          · have hrec := ih cli mn ep ct ((serialize d).map PyData.pstr) none none none
            simp only [requestCount] at hrec
            simp [h4, hx, hrl, savedBeforeDecision, traceSaves, requestCount, traceRequests,
              hrec.1, hrec.2]
          · simp [h4, hx, hrl, savedBeforeDecision, traceSaves, requestCount, traceRequests]

/-- C8: on a 429 response the sleep before the retry is the numeric
retry-after read from the response body when present, and the default 40
seconds when the body omits it. -/
theorem rate_limit_sleep_uses_retry_after :
    ∀ (C : Int) (r : Response) (rest : List Response) (mn ep ct : String)
      (d : Option PyData) (h p : Option (List (String × Option String))) (t : Option Int),
      pyOrInt t C ≠ 0 → r.status = 429 →
      (traceSleeps (sendLoop ⟨C⟩ mn ep ct (r :: rest) d h t p).2).head? =
        some ((r.retry_after.map Int.ofNat).getD 40) := by
  intro C r rest mn ep ct d h p t ht hr
  rw [sendLoop_cons, if_neg ht]
  simp [hr, http_exceptions, traceSleeps]

/-- C8 witness: a 429 whose body has no retry-after sleeps the default 40. -/
theorem rate_limit_sleep_uses_retry_after_witness :
    (traceSleeps (sendLoop ⟨5⟩ "GET" "guilds/1" "application/json"
        [rlResp none] none none none none).2).head? = some 40 := by
  have h := rate_limit_sleep_uses_retry_after 5 (rlResp none) [] "GET" "guilds/1"
    "application/json" none none none none (by decide) rfl
  simpa [rlResp] using h

/-- Auxiliary: once the caller headers and query parameters are gone and the
payload is an already-serialized string — exactly the shape of every
internal retry, which re-enters `__send` with `headers=None`, `params=None`
and the serialized payload — every request of the rest of the run carries
only the content-type header, no query parameters and that payload. -/
theorem sendLoop_default_requests : ∀ (script : List Response) (cli : HTTPClient)
    (mn ep ct : String) (d : Option String) (t : Option Int) (req : Request),
    req ∈ traceRequests (sendLoop cli mn ep ct script (d.map PyData.pstr) none t none).2 →
    req = ⟨mn, ep, [("Content-Type", ct)], none, d⟩ := by
  intro script
  induction script with
  | nil =>
    intro cli mn ep ct d t req hmem
    by_cases ht : pyOrInt t cli.max_ttl = 0
    · rw [sendLoop_nil, if_pos ht] at hmem
      simp [traceRequests] at hmem
    · rw [sendLoop_nil, if_neg ht] at hmem
      simp [traceRequests] at hmem
      simp [hmem, mergedHeaders, remove_none, serialize_map_pstr]
  | cons r rest ih =>
    intro cli mn ep ct d t req hmem
    by_cases ht : pyOrInt t cli.max_ttl = 0
    · rw [sendLoop_cons, if_pos ht] at hmem
      simp [traceRequests] at hmem
    · rw [sendLoop_cons, if_neg ht] at hmem
      by_cases h4 : r.status < 400
      · by_cases h204 : r.status = 204 <;>
          · simp [h4, h204, traceRequests] at hmem
            simp [hmem, mergedHeaders, remove_none, serialize_map_pstr]
      · rcases hx : http_exceptions r.status with _ | exc
        · simp [h4, hx, traceRequests, serialize_map_pstr] at hmem
          rcases hmem with hmem | hmem
          · simp [hmem, mergedHeaders, remove_none, serialize_map_pstr]
          · exact ih cli mn ep ct d (some (pyOrInt t cli.max_ttl - 1)) req hmem
        · by_cases hrl : exc = MappedExc.rateLimitError
          · simp [h4, hx, hrl, traceRequests, serialize_map_pstr] at hmem
            rcases hmem with hmem | hmem
            · simp [hmem, mergedHeaders, remove_none, serialize_map_pstr]
            · exact ih cli mn ep ct d none req hmem
          · simp [h4, hx, hrl, traceRequests] at hmem
            simp [hmem, mergedHeaders, remove_none, serialize_map_pstr]

/-- C9: every internally re-issued request — on the 429 path and on the 5xx
path alike — carries only the method, endpoint, content type and serialized
payload of the original call: caller-supplied headers and query parameters
are not forwarded to any retry. -/
theorem retries_drop_caller_headers_params :
    ∀ (C : Int) (script : List Response) (mn ep ct : String) (d : Option PyData)
      (h p : Option (List (String × Option String))) (t : Option Int) (req : Request),
      req ∈ (traceRequests (sendLoop ⟨C⟩ mn ep ct script d h t p).2).tail →
      req = ⟨mn, ep, [("Content-Type", ct)], none, serialize d⟩ := by
  intro C script mn ep ct d h p t req hmem
  by_cases ht : pyOrInt t (HTTPClient.mk C).max_ttl = 0
  · cases script with
    | nil =>
      rw [sendLoop_nil, if_pos ht] at hmem
      simp [traceRequests] at hmem
    | cons r rest =>
      rw [sendLoop_cons, if_pos ht] at hmem
      simp [traceRequests] at hmem
  · cases script with
    | nil =>
      rw [sendLoop_nil, if_neg ht] at hmem
      simp [traceRequests] at hmem
    | cons r rest =>
      rw [sendLoop_cons, if_neg ht] at hmem
      by_cases h4 : r.status < 400
      · by_cases h204 : r.status = 204 <;> simp [h4, h204, traceRequests] at hmem
      · rcases hx : http_exceptions r.status with _ | exc
        · simp [h4, hx, traceRequests] at hmem
          exact sendLoop_default_requests rest ⟨C⟩ mn ep ct (serialize d)
            (some (pyOrInt t (HTTPClient.mk C).max_ttl - 1)) req (by
              simpa [serialize_map_pstr] using hmem)
        · by_cases hrl : exc = MappedExc.rateLimitError
          · simp [h4, hx, hrl, traceRequests] at hmem
            exact sendLoop_default_requests rest ⟨C⟩ mn ep ct (serialize d) none req (by
              simpa [serialize_map_pstr] using hmem)
          · simp [h4, hx, hrl, traceRequests] at hmem

/-- C9 witness: with caller headers and query parameters supplied and a dict
payload, the single retried request after a 500 carries only the content
type and the serialized payload. -/
theorem retries_drop_caller_headers_params_witness :
    (⟨"POST", "channels/9/messages", [("Content-Type", "application/json")], none,
        some "content:hi"⟩ : Request) =
      ⟨"POST", "channels/9/messages", [("Content-Type", "application/json")], none,
        serialize (some (PyData.pdict [("content", "hi")]))⟩ :=
  retries_drop_caller_headers_params 5 [srvResp, okResp "done"] "POST" "channels/9/messages"
    "application/json" (some (PyData.pdict [("content", "hi")]))
    (some [("X-Audit-Log-Reason", some "why")]) (some [("wait", some "true")]) none
    ⟨"POST", "channels/9/messages", [("Content-Type", "application/json")], none,
      some "content:hi"⟩
    (by decide)

/-- C10: with ceiling 0 every public send call fails immediately with the
retries-exhausted `ServerError` naming the endpoint, and the empty trace
shows that no rate-gate wait, no network request and no bucket save happen:
rate-limit state is untouched. -/
theorem zero_ceiling_fails_before_any_effect :
    ∀ (script : List Response) (mn ep ct : String) (d : Option PyData)
      (h p : Option (List (String × Option String))),
      send ⟨0⟩ script mn ep ct d h p = (SendResult.retriesExhausted ep, []) := by
  intro script mn ep ct d h p
  cases script <;> rfl
